import Mathlib

/-!
Verification development for the HackHarvard2025 dashboard frontend.

The central object is the marker/overlay synchronization logic of
`src/frontend/src/components/Map.tsx` (function `addBuildingMarkers`,
lines 254-537) together with the earlier pinpoint variant of the same
component (`src/unnamed/part_005`).  The state kept by the component is

  * `markersRef` : a JavaScript `Map` from string keys to marker records
    (the Overlay registry),
  * the set of mapbox `Marker` objects currently added to the map
    (the visual surface),
  * the browser console log.

We embed this state as `SyncState` below.  Marker handles are modelled
as allocation numbers (`new mapboxgl.Marker(...)` allocates a fresh
handle); the JavaScript `Map.set` insert-or-replace semantics is
`mapSet`.  Numeric coordinate values never enter any property we prove,
so latitude/longitude are modelled as integers; a building whose
coordinates are missing or invalid is one with `coords = none`
(mapbox `LngLat.convert` throws on a non-number input, which is what
`Marker.setLngLat` receives in that case).
-/

/-- The console messages issued by `addBuildingMarkers` (Map.tsx):
`adding n` is the `console.log` at the start of the function reporting
the snapshot size (lines 257-258), `added id` is the per-building
`console.log` after a marker is registered (line 511), and
`createError id` is the `console.error` in the per-building `catch`
(line 514). -/
inductive LogEntry
  | adding (n : Nat)
  | added (id : Nat)
  | createError (id : Nat)
deriving DecidableEq

/-- An energy `Building` entity as consumed by `addBuildingMarkers`.
Only the fields the synchronizer's control flow reads are kept: the
stable `id` and the coordinate pair, with `none` standing for
missing/invalid `longitude`/`latitude` (the display-payload fields
`name`, `category`, `square_feet`, ... feed only popup HTML). -/
structure Building where
  id : Nat
  coords : Option (Int × Int)
deriving DecidableEq

/-- The registry key used by `addBuildingMarkers`:
`markersRef.current.set(`building-${building.id}`, ...)` (Map.tsx 509). -/
def markerKey (b : Building) : String :=
  "building-" ++ toString b.id

/-- JavaScript `Map.set` on an insertion-ordered association list:
replace in place if the key is present, append otherwise. -/
def mapSet (k : String) (v : Nat) (m : List (String × Nat)) : List (String × Nat) :=
  if m.any (fun p => p.1 == k) then
    m.map (fun p => if p.1 == k then (k, v) else p)
  else
    m ++ [(k, v)]

/-- The component state touched by the marker loop: the Overlay registry
(`markersRef.current`), the markers currently added to the map, the next
fresh marker handle, and the console log. -/
structure SyncState where
  registry : List (String × Nat)
  surface : List Nat
  nextHandle : Nat
  log : List LogEntry
deriving DecidableEq

/-- The state of the component before any snapshot is applied. -/
def initSync : SyncState :=
  { registry := [], surface := [], nextHandle := 0, log := [] }

/-- One iteration of the `for (const building of buildingData)` loop of
`addBuildingMarkers` (Map.tsx 260-516).  With valid coordinates the body
creates a fresh marker, adds it to the map, stores it in the registry
under `markerKey` (overwriting any previous entry for that key, which is
left on the map) and logs the `Added marker` line.  With missing/invalid
coordinates `new mapboxgl.Marker(...).setLngLat(...)` throws before the
registry is touched; the `catch` logs `console.error` and the loop moves
on.  (The per-building energy fetch and all popup HTML feed only the
popup content and are elided.) -/
def processBuilding (s : SyncState) (b : Building) : SyncState :=
  match b.coords with
  | none =>
      { s with log := s.log ++ [LogEntry.createError b.id] }
  | some _ =>
      { registry := mapSet (markerKey b) s.nextHandle s.registry
        surface := s.surface ++ [s.nextHandle]
        nextHandle := s.nextHandle + 1
        log := s.log ++ [LogEntry.added b.id] }

/-- `addBuildingMarkers` (Map.tsx 254-537): the early return
`if (!map.current || buildingData.length === 0) return` followed by the
per-building loop.  The trailing `fitBounds` block moves the camera only
and is elided. -/
def addBuildingMarkers (buildingData : List Building) (s : SyncState) : SyncState :=
  if buildingData.isEmpty then s
  else buildingData.foldl processBuilding
    { s with log := s.log ++ [LogEntry.adding buildingData.length] }

/-- The registry keys, in insertion order. -/
def registryKeys (s : SyncState) : List String :=
  s.registry.map Prod.fst

-- ### Basic lemmas about `mapSet` and the loop

theorem any_key_iff (m : List (String × Nat)) (k : String) :
    (m.any (fun p => p.1 == k)) = true ↔ k ∈ m.map Prod.fst := by
  simp only [List.any_eq_true, List.mem_map, beq_iff_eq]

theorem mapSet_keys_replace (k : String) (v : Nat) (m : List (String × Nat)) :
    (m.map (fun p => if p.1 == k then (k, v) else p)).map Prod.fst = m.map Prod.fst := by
  rw [List.map_map]
  apply List.map_congr_left
  intro p _
  by_cases hk : (p.1 == k) = true
  · simp only [Function.comp_apply, hk, if_true]
    exact (beq_iff_eq.mp hk).symm
  · simp only [Function.comp_apply]
    rw [if_neg hk]

theorem mapSet_keys_mem (k : String) (v : Nat) (m : List (String × Nat)) (x : String) :
    x ∈ (mapSet k v m).map Prod.fst ↔ x = k ∨ x ∈ m.map Prod.fst := by
  unfold mapSet
  by_cases h : (m.any (fun p => p.1 == k)) = true
  · rw [if_pos h, mapSet_keys_replace]
    have hk : k ∈ m.map Prod.fst := (any_key_iff m k).mp h
    constructor
    · intro hx
      exact Or.inr hx
    · rintro (rfl | hx)
      · exact hk
      · exact hx
  · rw [if_neg h]
    simp only [List.map_append, List.mem_append, List.map_cons, List.map_nil,
      List.mem_singleton]
    tauto

theorem mapSet_keys_of_mem (k : String) (v : Nat) (m : List (String × Nat))
    (h : k ∈ m.map Prod.fst) :
    (mapSet k v m).map Prod.fst = m.map Prod.fst := by
  unfold mapSet
  rw [if_pos ((any_key_iff m k).mpr h), mapSet_keys_replace]

theorem mapSet_keys_nodup (k : String) (v : Nat) (m : List (String × Nat))
    (h : (m.map Prod.fst).Nodup) : ((mapSet k v m).map Prod.fst).Nodup := by
  unfold mapSet
  by_cases hany : (m.any (fun p => p.1 == k)) = true
  · rw [if_pos hany, mapSet_keys_replace]
    exact h
  · rw [if_neg hany]
    simp only [List.map_append, List.map_cons, List.map_nil]
    refine List.Nodup.append h (List.nodup_singleton _) ?_
    intro x hx hx'
    simp only [List.mem_singleton] at hx'
    rw [hx'] at hx
    exact hany ((any_key_iff m k).mpr hx)

theorem processBuilding_keys_mem (s : SyncState) (b : Building) (x : String) :
    x ∈ registryKeys (processBuilding s b) ↔
      (b.coords.isSome ∧ x = markerKey b) ∨ x ∈ registryKeys s := by
  cases hb : b.coords with
  | none => simp [processBuilding, hb, registryKeys]
  | some c =>
      simp only [processBuilding, hb, registryKeys, Option.isSome_some, true_and]
      exact mapSet_keys_mem (markerKey b) s.nextHandle s.registry x

theorem foldl_keys_mem (l : List Building) (s : SyncState) (x : String) :
    x ∈ registryKeys (l.foldl processBuilding s) ↔
      (∃ b ∈ l, b.coords.isSome ∧ markerKey b = x) ∨ x ∈ registryKeys s := by
  induction l generalizing s with
  | nil => simp
  | cons b t ih =>
      rw [List.foldl_cons, ih]
      rw [processBuilding_keys_mem]
      simp only [List.mem_cons]
      constructor
      · rintro (⟨b', hb', hs, hk⟩ | ⟨hs, rfl⟩ | hx)
        · exact Or.inl ⟨b', Or.inr hb', hs, hk⟩
        · exact Or.inl ⟨b, Or.inl rfl, hs, rfl⟩
        · exact Or.inr hx
      · rintro (⟨b', hb' | hb', hs, hk⟩ | hx)
        · subst hb'
          exact Or.inr (Or.inl ⟨hs, hk.symm⟩)
        · exact Or.inl ⟨b', hb', hs, hk⟩
        · exact Or.inr (Or.inr hx)

theorem addBuildingMarkers_keys_mem (l : List Building) (s : SyncState) (x : String) :
    x ∈ registryKeys (addBuildingMarkers l s) ↔
      (∃ b ∈ l, b.coords.isSome ∧ markerKey b = x) ∨ x ∈ registryKeys s := by
  unfold addBuildingMarkers
  by_cases hl : l.isEmpty
  · rw [if_pos hl]
    rw [List.isEmpty_iff.mp hl]
    simp
  · rw [if_neg hl, foldl_keys_mem]
    rfl

theorem foldl_keys_nodup (l : List Building) (s : SyncState)
    (h : (registryKeys s).Nodup) : (registryKeys (l.foldl processBuilding s)).Nodup := by
  induction l generalizing s with
  | nil => exact h
  | cons b t ih =>
      rw [List.foldl_cons]
      apply ih
      cases hb : b.coords with
      | none => simpa [processBuilding, hb, registryKeys] using h
      | some c =>
          simp only [processBuilding, hb, registryKeys]
          exact mapSet_keys_nodup (markerKey b) s.nextHandle s.registry h

theorem addBuildingMarkers_keys_nodup (l : List Building) (s : SyncState)
    (h : (registryKeys s).Nodup) : (registryKeys (addBuildingMarkers l s)).Nodup := by
  unfold addBuildingMarkers
  by_cases hl : l.isEmpty
  · rwa [if_pos hl]
  · rw [if_neg hl]
    exact foldl_keys_nodup l _ h

theorem foldl_keys_eq_of_subset (l : List Building) (s : SyncState)
    (h : ∀ b ∈ l, b.coords.isSome → markerKey b ∈ registryKeys s) :
    registryKeys (l.foldl processBuilding s) = registryKeys s := by
  induction l generalizing s with
  | nil => rfl
  | cons b t ih =>
      rw [List.foldl_cons]
      have hkeys : registryKeys (processBuilding s b) = registryKeys s := by
        cases hb : b.coords with
        | none => simp [processBuilding, hb, registryKeys]
        | some c =>
            simp only [processBuilding, hb, registryKeys]
            exact mapSet_keys_of_mem (markerKey b) s.nextHandle s.registry
              (h b (List.mem_cons_self b t) (by simp [hb]))
      rw [ih (processBuilding s b) ?_, hkeys]
      intro b' hb' hs
      rw [hkeys]
      exact h b' (List.mem_cons_of_mem b hb') hs

theorem foldl_surface_length (l : List Building) (s : SyncState) :
    (l.foldl processBuilding s).surface.length =
      s.surface.length + l.countP (fun b => b.coords.isSome) := by
  induction l generalizing s with
  | nil => simp
  | cons b t ih =>
      rw [List.foldl_cons, ih]
      cases hb : b.coords with
      | none => simp [processBuilding, hb, List.countP_cons]
      | some c =>
          simp [processBuilding, hb, List.countP_cons]
          omega

/-- A `PinpointLocation` from the dashboard store as consumed by the
pinpoint `Map.tsx` (part_005): stable string `id` and a coordinate pair
(`name` and `type` feed only popup/marker styling). -/
structure Pinpoint where
  id : String
  coords : Int × Int
deriving DecidableEq

/-- The marker state of the pinpoint component: its `markersRef`
registry, the markers on the map, and the allocation counter. -/
structure PinState where
  registry : List (String × Nat)
  surface : List Nat
  nextHandle : Nat
deriving DecidableEq

/-- Body of the `pinpoints.forEach` loop (part_005 lines 226-284):
create a marker element, add the marker to the map, register it under
`pinpoint.id`. -/
def addPin (s : PinState) (p : Pinpoint) : PinState :=
  { registry := mapSet p.id s.nextHandle s.registry
    surface := s.surface ++ [s.nextHandle]
    nextHandle := s.nextHandle + 1 }

/-- The guarded marker pass of part_005 (lines 224-285): markers are
added only when the registry is still empty,
`if (markersRef.current.size === 0) { pinpoints.forEach(...) }`. -/
def addPinpointMarkers (pins : List Pinpoint) (s : PinState) : PinState :=
  if s.registry.length = 0 then pins.foldl addPin s else s

theorem mapSet_length_ge (k : String) (v : Nat) (m : List (String × Nat)) :
    m.length ≤ (mapSet k v m).length := by
  unfold mapSet
  by_cases h : (m.any (fun p => p.1 == k)) = true
  · rw [if_pos h, List.length_map]
  · rw [if_neg h, List.length_append]
    omega

theorem addPin_registry_pos (s : PinState) (p : Pinpoint) :
    1 ≤ (addPin s p).registry.length := by
  unfold addPin mapSet
  by_cases h : (s.registry.any (fun q => q.1 == p.id)) = true
  · simp only [if_pos h, List.length_map]
    rcases List.any_eq_true.mp h with ⟨q, hq, _⟩
    exact List.length_pos_of_mem hq
  · simp only [if_neg h, List.length_append, List.length_cons, List.length_nil]
    omega

theorem foldl_addPin_registry_mono (pins : List Pinpoint) (s : PinState) :
    s.registry.length ≤ (pins.foldl addPin s).registry.length := by
  induction pins generalizing s with
  | nil => exact Nat.le_refl _
  | cons p t ih =>
      rw [List.foldl_cons]
      exact Nat.le_trans (mapSet_length_ge p.id s.nextHandle s.registry) (ih (addPin s p))

theorem foldl_addPin_registry_pos (p : Pinpoint) (t : List Pinpoint) (s : PinState) :
    1 ≤ ((p :: t).foldl addPin s).registry.length := by
  rw [List.foldl_cons]
  exact Nat.le_trans (addPin_registry_pos s p) (foldl_addPin_registry_mono t (addPin s p))

theorem addBuildingMarkers_keys_eq_of_subset (l : List Building) (s : SyncState)
    (h : ∀ b ∈ l, b.coords.isSome → markerKey b ∈ registryKeys s) :
    registryKeys (addBuildingMarkers l s) = registryKeys s := by
  unfold addBuildingMarkers
  by_cases hl : l.isEmpty
  · rw [if_pos hl]
  · rw [if_neg hl]
    exact foldl_keys_eq_of_subset l _ h

theorem addBuildingMarkers_surface_length (l : List Building) (s : SyncState) :
    (addBuildingMarkers l s).surface.length =
      s.surface.length + l.countP (fun b => b.coords.isSome) := by
  unfold addBuildingMarkers
  by_cases hl : l.isEmpty
  · rw [if_pos hl, List.isEmpty_iff.mp hl]
    simp
  · rw [if_neg hl, foldl_surface_length]

-- ### Claim C1

/-- C1, counterexample.  The claim says that after applying snapshot S2
on top of snapshot S1 the registry holds zero Overlays for ids that
appear only in S1.  With S1 = [building 1] and S2 = [building 2] the
code keeps the key `building-1` in the registry although no building of
S2 carries this key: `addBuildingMarkers` only adds and overwrites
entries, it never removes the ids absent from the new snapshot. -/
theorem c1_stale_id_not_destroyed :
    "building-1" ∈ registryKeys
        (addBuildingMarkers [⟨2, some (0, 0)⟩]
          (addBuildingMarkers [⟨1, some (0, 0)⟩] initSync))
    ∧ ∀ b ∈ ([⟨2, some (0, 0)⟩] : List Building), markerKey b ≠ "building-1" := by
  decide

/-- C1, amended: applying S2 after S1 leaves the Overlay registry with
exactly one entry per id that occurs with valid coordinates in S1 or in
S2 — ids appearing only in S1 are retained, not destroyed.  (Keys are
without duplicates, so "exactly one per id in S2" still holds; only the
destruction of stale ids fails.) -/
theorem c1_registry_after_two_snapshots (S1 S2 : List Building) (x : String) :
    (x ∈ registryKeys (addBuildingMarkers S2 (addBuildingMarkers S1 initSync)) ↔
      (∃ b ∈ S1, b.coords.isSome ∧ markerKey b = x) ∨
      (∃ b ∈ S2, b.coords.isSome ∧ markerKey b = x))
    ∧ (registryKeys (addBuildingMarkers S2 (addBuildingMarkers S1 initSync))).Nodup := by
  constructor
  · rw [addBuildingMarkers_keys_mem, addBuildingMarkers_keys_mem]
    have hinit : x ∈ registryKeys initSync ↔ False := by
      simp [initSync, registryKeys]
    rw [hinit, or_false]
    exact Or.comm
  · refine addBuildingMarkers_keys_nodup _ _ (addBuildingMarkers_keys_nodup _ _ ?_)
    simp [initSync, registryKeys]

-- ### Claim C2

/-- C2, counterexample.  Applying the same one-building snapshot twice
is not idempotent in the `addBuildingMarkers` version: the second
application allocates a fresh marker and leaves both markers on the map
(2 on the surface, 1 in the registry — the first marker handle leaks),
so the resulting state differs from the state after the first
application. -/
theorem c2_reapply_not_idempotent :
    addBuildingMarkers [⟨1, some (0, 0)⟩]
        (addBuildingMarkers [⟨1, some (0, 0)⟩] initSync)
      ≠ addBuildingMarkers [⟨1, some (0, 0)⟩] initSync
    ∧ (addBuildingMarkers [⟨1, some (0, 0)⟩]
        (addBuildingMarkers [⟨1, some (0, 0)⟩] initSync)).surface.length = 2
    ∧ (addBuildingMarkers [⟨1, some (0, 0)⟩] initSync).surface.length = 1
    ∧ (addBuildingMarkers [⟨1, some (0, 0)⟩]
        (addBuildingMarkers [⟨1, some (0, 0)⟩] initSync)).registry.length = 1 := by
  decide

/-- C2, amended: re-applying a snapshot adds no new registry keys (so
the registry still holds one entry per id), but it allocates one fresh
marker per valid entity and leaves the previously created markers on the
map — the marker handles leak.  Full idempotence holds only for the
guarded pinpoint variant (part_005), where a non-empty registry makes
the whole marker pass a no-op. -/
theorem c2_reapply_keys_preserved_but_markers_leak :
    (∀ S : List Building,
      registryKeys (addBuildingMarkers S (addBuildingMarkers S initSync)) =
        registryKeys (addBuildingMarkers S initSync)
      ∧ (addBuildingMarkers S (addBuildingMarkers S initSync)).surface.length =
          (addBuildingMarkers S initSync).surface.length +
            S.countP (fun b => b.coords.isSome))
    ∧ ∀ (pins : List Pinpoint) (s : PinState),
        addPinpointMarkers pins (addPinpointMarkers pins s) =
          addPinpointMarkers pins s := by
  constructor
  · intro S
    constructor
    · apply addBuildingMarkers_keys_eq_of_subset
      intro b hb hs
      rw [addBuildingMarkers_keys_mem]
      exact Or.inl ⟨b, hb, hs, rfl⟩
    · exact addBuildingMarkers_surface_length S _
  · intro pins s
    unfold addPinpointMarkers
    by_cases h : s.registry.length = 0
    · rw [if_pos h]
      cases pins with
      | nil =>
          rw [List.foldl_nil, if_pos h, List.foldl_nil]
      | cons p t =>
          have hpos := foldl_addPin_registry_pos p t s
          rw [if_neg (by omega)]
    · rw [if_neg h, if_neg h]

-- ### Claim C3

/-- The closed category set of the dashboard store:
`type StudyCase = 'traffic' | 'weather' | 'energy'`. -/
inductive StudyCase
  | traffic
  | weather
  | energy
deriving DecidableEq

/-- `setActiveStudyCase` of the zustand store (dashboardStore.ts 261):
`(studyCase) => set({ activeStudyCase: studyCase })` — it overwrites the
single `activeStudyCase` field with its argument. -/
def setActiveStudyCase (studyCase : Option StudyCase) (_current : Option StudyCase) :
    Option StudyCase :=
  studyCase

/-- `handleClick` of a pinpoint marker (part_005 lines 253-258): read the
current selection and the setter from the store and run
`setState(current === pinpoint.type ? null : pinpoint.type)`. -/
def handleClick (ptype : StudyCase) (current : Option StudyCase) : Option StudyCase :=
  setActiveStudyCase (if current = some ptype then none else some ptype) current

/-- C4: `handleClick` is the idempotent toggle the spec demands:
selecting the active category clears the selection, selecting a
different category (or selecting from the cleared state) makes exactly
that category active, and in every state the store holds at most one
active category — the result is `none` or `some` of the clicked
category. -/
theorem c4_select_is_idempotent_toggle (c c' : StudyCase) (current : Option StudyCase) :
    handleClick c (some c) = none
    ∧ (c ≠ c' → handleClick c (some c') = some c)
    ∧ handleClick c none = some c
    ∧ (handleClick c current = none ∨ handleClick c current = some c) := by
  refine ⟨?_, ?_, ?_, ?_⟩
  · simp [handleClick, setActiveStudyCase]
  · intro hne
    simp only [handleClick, setActiveStudyCase]
    rw [if_neg (fun hh => hne (Option.some.inj hh).symm)]
  · simp [handleClick, setActiveStudyCase]
  · simp only [handleClick, setActiveStudyCase]
    by_cases h : current = some c
    · rw [if_pos h]
      exact Or.inl rfl
    · rw [if_neg h]
      exact Or.inr rfl

/-- Witness for `c4_select_is_idempotent_toggle`: clicking `traffic`
while `weather` is active replaces the selection. -/
theorem c4_select_witness :
    handleClick StudyCase.traffic (some StudyCase.weather) = some StudyCase.traffic :=
  (c4_select_is_idempotent_toggle StudyCase.traffic StudyCase.weather none).2.1
    (by decide)

-- ### Claim C5: popup lifecycle (Map.tsx marker/map click handlers, part_005)

/-- The popup-related component state: the open click-popups (popups
created with a close button), the `clickPopup.current` ref, the marker
ids whose hover popup is currently open, and the allocation counter for
popup objects. -/
structure PopupState where
  openClick : List Nat
  clickRef : Option Nat
  hoverOpen : List Nat
  nextPopup : Nat
deriving DecidableEq

/-- Initial popup state of a freshly mounted component. -/
def initPopup : PopupState :=
  { openClick := [], clickRef := none, hoverOpen := [], nextPopup := 0 }

/-- The popup-affecting UI events of the component. -/
inductive PopupEvent
  | markerClick (i : Nat)
  | emptyMapClick
  | popupClosed
  | hoverEnter (i : Nat)
  | hoverLeave (i : Nat)

/-- One event-handler step of the popup lifecycle.

* `markerClick` (Map.tsx 463-506, and the building-layer click of
  part_005 346-430): remove `clickPopup.current` if set, click the close
  button of every popup in the DOM that has one (hover popups are
  created with `closeButton: false`, so only click popups close), open a
  fresh popup and store it in `clickPopup.current`.
* `emptyMapClick` (Map.tsx 899-911, part_005 433-443): remove the
  current click popup and null the ref.
* `popupClosed`: the user closes the open click popup with its close
  button; the popup leaves the map and the `close` listener
  (Map.tsx 501-505) nulls the ref.
* `hoverEnter` / `hoverLeave` (Map.tsx 358-381, part_005 275-281): each
  marker owns one hover popup object, added to the map on `mouseenter`
  and removed on `mouseleave`, with no look at the click popup. -/
def popupStep (st : PopupState) (e : PopupEvent) : PopupState :=
  match e with
  | .markerClick _ =>
      { st with openClick := [st.nextPopup]
                clickRef := some st.nextPopup
                nextPopup := st.nextPopup + 1 }
  | .emptyMapClick =>
      { st with openClick := [], clickRef := none }
  | .popupClosed =>
      match st.clickRef with
      | some p => { st with openClick := st.openClick.filter (fun q => ¬ q = p)
                            clickRef := none }
      | none => st
  | .hoverEnter i =>
      { st with hoverOpen := if i ∈ st.hoverOpen then st.hoverOpen else st.hoverOpen ++ [i] }
  | .hoverLeave i =>
      { st with hoverOpen := st.hoverOpen.filter (fun q => ¬ q = i) }

/-- The states the component can be in: everything produced from the
initial state by event-handler steps. -/
inductive PopupReachable : PopupState → Prop
  | init : PopupReachable initPopup
  | step (st : PopupState) (e : PopupEvent) :
      PopupReachable st → PopupReachable (popupStep st e)

theorem popupStep_openClick_le (st : PopupState) (e : PopupEvent)
    (h : st.openClick.length ≤ 1) : (popupStep st e).openClick.length ≤ 1 := by
  cases e with
  | markerClick i => simp [popupStep]
  | emptyMapClick => simp [popupStep]
  | popupClosed =>
      cases hr : st.clickRef with
      | none => simpa [popupStep, hr] using h
      | some p =>
          simp only [popupStep, hr]
          exact Nat.le_trans (List.length_filter_le _ _) h
  | hoverEnter i => simpa [popupStep] using h
  | hoverLeave i => simpa [popupStep] using h

/-- C5: in every reachable state at most one click-popup is open;
opening a new click-popup leaves exactly the fresh popup open (any
previously open click-popup is closed first); and a `mouseleave` closes
that marker's hover popup while leaving the click-popups untouched —
also when a click popup is open. -/
theorem c5_popup_lifecycle (st : PopupState) (i : Nat) :
    (PopupReachable st → st.openClick.length ≤ 1)
    ∧ (popupStep st (.markerClick i)).openClick = [st.nextPopup]
    ∧ i ∉ (popupStep st (.hoverLeave i)).hoverOpen
    ∧ (popupStep st (.hoverLeave i)).openClick = st.openClick
    ∧ (popupStep st (.hoverLeave i)).clickRef = st.clickRef := by
  refine ⟨?_, rfl, ?_, rfl, rfl⟩
  · intro hr
    induction hr with
    | init => simp [initPopup]
    | step st' e' _ ih => exact popupStep_openClick_le st' e' ih
  · simp only [popupStep]
    intro hmem
    have := (List.mem_filter.mp hmem).2
    simp at this

/-- Witness for `c5_popup_lifecycle`: after clicking marker 0 from the
initial state the single open click popup is popup 0, and a
`mouseleave` on marker 1 while that click popup is open closes marker
1's hover popup and keeps the click popup. -/
theorem c5_popup_witness :
    (popupStep initPopup (.markerClick 0)).openClick.length ≤ 1
    ∧ 1 ∉ (popupStep (popupStep initPopup (.markerClick 0)) (.hoverLeave 1)).hoverOpen
    ∧ (popupStep (popupStep initPopup (.markerClick 0)) (.hoverLeave 1)).openClick =
        (popupStep initPopup (.markerClick 0)).openClick :=
  ⟨(c5_popup_lifecycle (popupStep initPopup (.markerClick 0)) 0).1
      (PopupReachable.step initPopup (.markerClick 0) PopupReachable.init),
    (c5_popup_lifecycle (popupStep initPopup (.markerClick 0)) 1).2.2.1,
    (c5_popup_lifecycle (popupStep initPopup (.markerClick 0)) 1).2.2.2.1⟩

-- ### Claim C6: in-flight fetches resolving after unmount

/-- The unmount cleanup of the map component (Map.tsx 1078-1094,
part_005 455-469): every marker stored in `markersRef` is removed from
the map and the registry is cleared.  (Popup and map teardown have no
effect on the overlay state modelled here; markers that leaked out of
the registry are not removed by the cleanup either, since it walks the
registry.) -/
def cleanupSync (s : SyncState) : SyncState :=
  { s with
      surface := s.surface.filter (fun h => !(s.registry.any (fun p => p.2 == h)))
      registry := [] }

/-- The lifecycle state of the map component: whether it is mounted,
the `buildingData` React state, and the overlay state. -/
structure CompState where
  mounted : Bool
  buildingData : List Building
  sync : SyncState
deriving DecidableEq

/-- The lifecycle events relevant to claim C6. -/
inductive CompEvent
  | resolveBuildings (bs : List Building)
  | unmount

/-- One lifecycle step.

* `resolveBuildings bs`: the `fetchBuildingData` promise resolves
  (Map.tsx 141-153) and calls `setBuildingData`.  On a mounted component
  the `[buildingData]` effect (Map.tsx 247-252) then runs
  `addBuildingMarkers` when the new data is non-empty.  On an unmounted
  component React drops the state update — no re-render and no effect
  run happen, which is the framework behaviour the code relies on.
* `unmount`: React runs the effect cleanup, which disposes the markers
  and clears the registry (`cleanupSync`); a second unmount of an
  already unmounted component does not occur and is a no-op here. -/
def compStep (st : CompState) (e : CompEvent) : CompState :=
  match e with
  | .resolveBuildings bs =>
      if st.mounted then
        { st with buildingData := bs
                  sync := if 0 < bs.length then addBuildingMarkers bs st.sync else st.sync }
      else st
  | .unmount =>
      if st.mounted then
        { st with mounted := false, sync := cleanupSync st.sync }
      else st

/-- Run a sequence of lifecycle events. -/
def runComp (evs : List CompEvent) (st : CompState) : CompState :=
  evs.foldl compStep st

theorem compStep_unmounted (st : CompState) (e : CompEvent)
    (h : st.mounted = false) : compStep st e = st := by
  cases e with
  | resolveBuildings bs => simp [compStep, h]
  | unmount => simp [compStep, h]

theorem runComp_unmounted (evs : List CompEvent) (st : CompState)
    (h : st.mounted = false) : runComp evs st = st := by
  induction evs with
  | nil => rfl
  | cons e t ih => rw [runComp, List.foldl_cons, compStep_unmounted st e h]; exact ih

/-- C6: once the component is unmounted, any sequence of later events —
in particular fetches issued before unmount that resolve afterwards —
leaves the component state, and with it the disposed Overlay registry,
completely unchanged; and unmounting itself clears the registry.  So
after teardown no Overlay mutation is observable. -/
theorem c6_unmount_drops_late_fetches (st : CompState) (evs : List CompEvent) :
    (st.mounted = false → runComp evs st = st)
    ∧ (st.mounted = true →
        (compStep st .unmount).sync.registry = []
        ∧ runComp evs (compStep st .unmount) = compStep st .unmount) := by
  constructor
  · intro h
    exact runComp_unmounted evs st h
  · intro h
    constructor
    · simp [compStep, h, cleanupSync]
    · apply runComp_unmounted
      simp [compStep, h]

/-- Witness for `c6_unmount_drops_late_fetches`: a mounted component
with one rendered building is unmounted; a late building fetch then
resolves and changes nothing, and the registry stays empty. -/
theorem c6_unmount_witness :
    (compStep
        { mounted := true, buildingData := [⟨1, some (0, 0)⟩],
          sync := addBuildingMarkers [⟨1, some (0, 0)⟩] initSync }
        .unmount).sync.registry = []
    ∧ runComp [.resolveBuildings [⟨2, some (0, 0)⟩]]
        (compStep
          { mounted := true, buildingData := [⟨1, some (0, 0)⟩],
            sync := addBuildingMarkers [⟨1, some (0, 0)⟩] initSync }
          .unmount) =
        compStep
          { mounted := true, buildingData := [⟨1, some (0, 0)⟩],
            sync := addBuildingMarkers [⟨1, some (0, 0)⟩] initSync }
          .unmount :=
  (c6_unmount_drops_late_fetches
      { mounted := true, buildingData := [⟨1, some (0, 0)⟩],
        sync := addBuildingMarkers [⟨1, some (0, 0)⟩] initSync }
      [.resolveBuildings [⟨2, some (0, 0)⟩]]).2 rfl

-- ### Claim C7: the periodic refresh timers

/-- Timer state of an interval-registering effect: whether the owning
component is mounted, the handle of the interval the current effect run
registered (if any), the set of intervals registered by the effect that
were never cleared, and a fresh-handle counter.  This models both the
auto-refresh effect of the weather dashboard
(`useEffect(() => { ...; const interval = setInterval(fetchWeatherData,
5 * 60 * 1000); return () => clearInterval(interval); }, [])`) and the
traffic-cycling effect of Map.tsx 161-199, whose dependency list makes
it re-run. -/
structure TimerState where
  mounted : Bool
  current : Option Nat
  live : List Nat
  nextT : Nat
deriving DecidableEq

/-- Timer state before the component mounts. -/
def initTimer : TimerState :=
  { mounted := false, current := none, live := [], nextT := 0 }

/-- Events in the life of an interval effect. -/
inductive TimerEvent
  | mount
  | depsChange
  | unmount

/-- One step of the interval-effect lifecycle: `mount` runs the effect
body (`setInterval`), `depsChange` runs the stored cleanup
(`clearInterval`) and then the body again, `unmount` runs the cleanup
and deregisters the component. -/
def timerStep (st : TimerState) (e : TimerEvent) : TimerState :=
  match e with
  | .mount =>
      if st.mounted then st
      else
        { st with mounted := true, current := some st.nextT,
                  live := st.live ++ [st.nextT], nextT := st.nextT + 1 }
  | .depsChange =>
      if st.mounted then
        let cleared := match st.current with
          | some t => st.live.filter (fun q => ¬ q = t)
          | none => st.live
        { st with current := some st.nextT,
                  live := cleared ++ [st.nextT], nextT := st.nextT + 1 }
      else st
  | .unmount =>
      if st.mounted then
        { st with mounted := false, current := none,
                  live := match st.current with
                    | some t => st.live.filter (fun q => ¬ q = t)
                    | none => st.live }
      else st

/-- Reachable timer states. -/
inductive TimerReachable : TimerState → Prop
  | init : TimerReachable initTimer
  | step (st : TimerState) (e : TimerEvent) :
      TimerReachable st → TimerReachable (timerStep st e)

theorem timer_invariant (st : TimerState) (h : TimerReachable st) :
    st.live = st.current.toList ∧ (st.mounted = false → st.current = none) := by
  induction h with
  | init =>
      constructor
      · rfl
      · intro _
        rfl
  | step st' e _ ih =>
      rcases ih with ⟨hlive, hcur⟩
      cases e with
      | mount =>
          cases hm : st'.mounted with
          | true =>
              have hr : timerStep st' .mount = st' := by
                simp [timerStep, hm]
              rw [hr]
              exact ⟨hlive, hcur⟩
          | false =>
              have hr : timerStep st' .mount =
                  { st' with mounted := true, current := some st'.nextT,
                             live := st'.live ++ [st'.nextT], nextT := st'.nextT + 1 } := by
                simp [timerStep, hm]
              rw [hr]
              constructor
              · rw [hlive, hcur hm]
                rfl
              · intro hmf
                exact absurd hmf (by simp)
      | depsChange =>
          cases hm : st'.mounted with
          | false =>
              have hr : timerStep st' .depsChange = st' := by
                simp [timerStep, hm]
              rw [hr]
              exact ⟨hlive, hcur⟩
          | true =>
              cases hc : st'.current with
              | none =>
                  have hr : timerStep st' .depsChange =
                      { st' with current := some st'.nextT,
                                 live := st'.live ++ [st'.nextT], nextT := st'.nextT + 1 } := by
                    simp [timerStep, hm, hc]
                  rw [hr]
                  constructor
                  · rw [hlive, hc]
                    rfl
                  · intro hmf
                    rw [hm] at hmf
                    exact absurd hmf (by simp)
              | some t =>
                  have hr : timerStep st' .depsChange =
                      { st' with current := some st'.nextT,
                                 live := st'.live.filter (fun q => ¬ q = t) ++ [st'.nextT],
                                 nextT := st'.nextT + 1 } := by
                    simp [timerStep, hm, hc]
                  rw [hr]
                  constructor
                  · rw [hlive, hc]
                    simp
                  · intro hmf
                    rw [hm] at hmf
                    exact absurd hmf (by simp)
      | unmount =>
          cases hm : st'.mounted with
          | false =>
              have hr : timerStep st' .unmount = st' := by
                simp [timerStep, hm]
              rw [hr]
              exact ⟨hlive, hcur⟩
          | true =>
              cases hc : st'.current with
              | none =>
                  have hr : timerStep st' .unmount =
                      { st' with mounted := false, current := none, live := st'.live } := by
                    simp [timerStep, hm, hc]
                  rw [hr]
                  constructor
                  · rw [hlive, hc]
                  · intro _
                    rfl
              | some t =>
                  have hr : timerStep st' .unmount =
                      { st' with mounted := false, current := none,
                                 live := st'.live.filter (fun q => ¬ q = t) } := by
                    simp [timerStep, hm, hc]
                  rw [hr]
                  constructor
                  · rw [hlive, hc]
                    simp
                  · intro _
                    rfl

/-- C7: the interval effect registers its timer on mount and clears the
pending timer on unmount: in every reachable state the only live
interval is the one the current effect run registered, mounting from
the initial state makes exactly one interval pending, and in every
reachable unmounted state no interval survives — no orphaned timer can
fire after teardown. -/
theorem c7_timer_cleared_on_unmount (st : TimerState) (h : TimerReachable st) :
    st.live = st.current.toList
    ∧ (timerStep initTimer .mount).live = [0]
    ∧ (st.mounted = false → st.live = []) := by
  rcases timer_invariant st h with ⟨hlive, hcur⟩
  refine ⟨hlive, by simp [timerStep, initTimer], ?_⟩
  intro hm
  rw [hlive, hcur hm]
  rfl

/-- Witness for `c7_timer_cleared_on_unmount`: mount, one dependency
re-run, then unmount — no live timer remains. -/
theorem c7_timer_witness :
    (timerStep (timerStep (timerStep initTimer .mount) .depsChange) .unmount).live = [] :=
  (c7_timer_cleared_on_unmount
      (timerStep (timerStep (timerStep initTimer .mount) .depsChange) .unmount)
      (TimerReachable.step _ .unmount
        (TimerReachable.step _ .depsChange
          (TimerReachable.step _ .mount TimerReachable.init)))).2.2 rfl

-- ### Claim C8: fetch-failure semantics

/-- A traffic reading as delivered by `/api/traffic/directional`
(interface `TrafficDataPoint`, Map.tsx 12-26).  JavaScript numbers are
modelled as integers; no arithmetic on them enters the claims. -/
structure TrafficDataPoint where
  id : Int
  intersection_id : Int
  reading_timestamp : String
  northbound_left : Int
  northbound_thru : Int
  northbound_right : Int
  southbound_left : Int
  southbound_thru : Int
  southbound_right : Int
  total_vehicle_count : Int
  average_speed : Int
  congestion_level : String
  time_period : String
deriving DecidableEq

/-- The shape of the Flask responses, `{ success, data }`; `data` is
`none` when the field is absent from the JSON. -/
structure FetchPayload (α : Type) where
  success : Bool
  data : Option α
deriving DecidableEq

/-- The map-component state read and written by `fetchTrafficData`:
the `trafficData` React state plus the overlay state (which the fetch
path never touches). -/
structure MapFetchState where
  trafficData : List TrafficDataPoint
  sync : SyncState
deriving DecidableEq

/-- `fetchTrafficData` (Map.tsx 113-125) applied to the outcome of its
`fetch`: on success `setTrafficData(result.data)` runs only when
`result.success && result.data` holds (a present array, even an empty
one, is truthy); any thrown error is caught and merely logged by
`console.error`, leaving all state untouched. -/
def fetchTrafficStep (st : MapFetchState)
    (outcome : Except String (FetchPayload (List TrafficDataPoint))) : MapFetchState :=
  match outcome with
  | .ok result =>
      if result.success then
        match result.data with
        | some d => { st with trafficData := d }
        | none => st
      else st
  | .error _ => st

/-- A weather hour of the dashboard weather page (`CurrentWeather` /
`HourlyWeather`): the two interfaces coincide except that
`precip_prob_percent` is nullable, so one structure with an `Option`
covers both.  Timestamps are modelled as integers ordered like the
`Date` values the code compares. -/
structure WeatherHour where
  timestamp : Int
  is_day : Int
  cloudcover_percent : Int
  shortwave_radiation_wm2 : Int
  temperature_c : Int
  precip_prob_percent : Option Int
  rain_mm : Int
deriving DecidableEq

/-- The React state of the `Apps` weather page (dashboard feature file,
lines 194-198). -/
structure AppsState where
  currentWeather : Option WeatherHour
  futureHourlyForecast : List WeatherHour
  selectedHourIndex : Nat
  loading : Bool
  error : Option String
deriving DecidableEq

/-- `fetchWeatherData` (dashboard feature file, lines 200-233) applied
to the outcome of its two awaited fetches: on success the current
weather and the future-filtered forecast are stored and the error is
cleared; on any thrown error the `catch` stores the message and the
`finally` clears `loading`, leaving the previously fetched weather data
untouched. -/
def fetchWeatherStep (st : AppsState) (now : Int)
    (outcome : Except String (WeatherHour × Option (List WeatherHour))) : AppsState :=
  match outcome with
  | .ok (current, forecastData) =>
      { currentWeather := some current
        futureHourlyForecast := (forecastData.getD []).filter (fun h => now ≤ h.timestamp)
        selectedHourIndex := 0
        loading := false
        error := none }
  | .error msg =>
      { st with loading := false, error := some msg }

/-- The manual actions wired into the error card; `fetchWeatherData` is
the `onClick` of the `Try Again` button. -/
inductive RetryAction
  | fetchWeatherData
deriving DecidableEq

/-- The top-level views the `Apps` component can return. -/
inductive AppsView
  | loadingSkeleton
  | errorCard (msg : String) (retry : RetryAction)
  | emptyView
  | weatherView (selected : WeatherHour)
deriving DecidableEq

/-- `futureHourlyForecast[selectedHourIndex] || currentWeather`
(line 242): an out-of-range index yields `undefined`, which is falsy,
so the current weather is the fallback. -/
def selectedHour (st : AppsState) : Option WeatherHour :=
  (st.futureHourlyForecast.get? st.selectedHourIndex).orElse (fun _ => st.currentWeather)

/-- The early-return cascade of `Apps` (lines 246-293): the loading
skeleton, then the error card with the `Try Again` retry button, then
`return null` when no weather is available, else the weather view. -/
def renderApps (st : AppsState) : AppsView :=
  if st.loading then .loadingSkeleton
  else
    match st.error with
    | some msg => .errorCard msg .fetchWeatherData
    | none =>
        match st.currentWeather, selectedHour st with
        | some _, some sel => .weatherView sel
        | _, _ => .emptyView

/-- C8, counterexample.  A failing traffic fetch surfaces nothing: the
map component's state after the failure is identical to the state
before it.  The component has no error field and no retry UI at all —
the `catch` of `fetchTrafficData` (Map.tsx 122-124) only logs to the
console — so no recoverable error state with a manual retry action is
surfaced to the UI for this fetch failure, contrary to the claim that
one is surfaced on any fetch failure. -/
theorem c8_traffic_failure_surfaces_no_error :
    fetchTrafficStep { trafficData := [], sync := initSync } (.error "network down")
      = { trafficData := [], sync := initSync } :=
  rfl

/-- C8, amended: a fetch failure mutates nothing it should not, and no
failure crashes: the traffic fetch failure leaves the whole map-fetch
state — last-good traffic snapshot and existing overlays — unchanged
(and, having no error state, surfaces nothing); the weather fetch
failure retains the last-good weather data, records a recoverable
error, and the page then renders the error card whose retry action
re-invokes the fetch.  Both failure paths are caught, so no exception
escapes; only the weather page surfaces an error with a manual retry. -/
theorem c8_fetch_failure_retains_last_good (mst : MapFetchState) (st : AppsState)
    (e msg : String) (now : Int) :
    fetchTrafficStep mst (.error e) = mst
    ∧ (fetchWeatherStep st now (.error msg)).currentWeather = st.currentWeather
    ∧ (fetchWeatherStep st now (.error msg)).futureHourlyForecast = st.futureHourlyForecast
    ∧ (fetchWeatherStep st now (.error msg)).error = some msg
    ∧ renderApps (fetchWeatherStep st now (.error msg)) =
        AppsView.errorCard msg RetryAction.fetchWeatherData :=
  ⟨rfl, rfl, rfl, rfl, rfl⟩

-- ### Claim C9: suggestion fallbacks

/-- One AI-generated course of action of a `CitySuggestion`
(suggestion-detail-modal.tsx). -/
structure CourseAction where
  id : Nat
  title : String
  description : String
  impact : String
  responsible : String
  expectedOutcomes : List String
deriving DecidableEq

/-- The static fallback course-of-actions list hard-coded in
`SuggestionDetailModal` (suggestion-detail-modal.tsx 58-95). -/
def fallbackCourseOfActions : List CourseAction :=
  [ { id := 1
      title := "Deploy Smart Traffic Signals"
      description := "Install AI-powered signals at key intersections"
      impact := "High"
      responsible := "Traffic Management"
      expectedOutcomes :=
        [ "Traffic delays: 25% reduction"
        , "Fuel savings: $50K/month"
        , "Implementation: 3-month rollout" ] }
  , { id := 2
      title := "Increase Peak Hour Transit"
      description := "Add express bus routes during rush hours"
      impact := "Medium-High"
      responsible := "Public Transit Authority"
      expectedOutcomes :=
        [ "Ridership: 20% increase"
        , "Road congestion: 15% reduction"
        , "Emissions: 500 tons CO2 saved/year" ] }
  , { id := 3
      title := "Implement Dynamic Pricing"
      description := "Time-based tolling on major corridors"
      impact := "High"
      responsible := "Revenue Department"
      expectedOutcomes :=
        [ "Peak traffic: 25% reduction"
        , "Revenue: $2M annually"
        , "Travel time: 18% improvement" ] } ]

/-- A suggestion record returned by the LLM-backed service.  Only the
field the fallback logic inspects is kept; `title`, `why`, `priority`,
`estimated_cost` and the timeline feed header rendering only.
`courseOfActions` is `none` when the service omitted the field. -/
structure CitySuggestion where
  courseOfActions : Option (List CourseAction)
deriving DecidableEq

/-- The course-of-actions list the modal displays
(suggestion-detail-modal.tsx 58):
`suggestion.courseOfActions || [ ... ]`.  In JavaScript `null` and
`undefined` are falsy and take the fallback, while any array —
including the empty array — is truthy and is used as-is. -/
def courseOfActionsShown (s : CitySuggestion) : List CourseAction :=
  match s.courseOfActions with
  | none => fallbackCourseOfActions
  | some l => l

/-- The dashboard-store state the insights fetch touches (part_007). -/
structure StoreState where
  insights : List CitySuggestion
  loading : Bool
  error : Option String
deriving DecidableEq

/-- `fetchInsights` (part_007 lines 69-78) applied to the outcome of
`api.insights.getAll`: on success the insights are replaced; on a
thrown error the `catch` stores the message and clears `loading`,
leaving the insights unchanged. -/
def fetchInsightsStep (st : StoreState)
    (outcome : Except String (List CitySuggestion)) : StoreState :=
  match outcome with
  | .ok resp => { st with insights := resp, loading := false, error := none }
  | .error msg => { st with loading := false, error := some msg }

/-- The views `AnalysisPanel` can render.  An error card is among the
possible view shapes of the app, but the panel has no code path
producing one. -/
inductive PanelView
  | loadingSpinner
  | emptyState (message : String)
  | suggestionList (shown : List CitySuggestion)
  | panelError (msg : String)
deriving DecidableEq

/-- `AnalysisPanel` (analysis-panel.tsx 39-121): the loading spinner,
then the `No insights available yet.` placeholder when `insights` is
empty, else the suggestion cards.  (The priority sort and the
`slice(0, 5)` cap are presentational and elided; the store's `error`
field is never read by the panel.) -/
def renderAnalysisPanel (loading : Bool) (insights : List CitySuggestion) : PanelView :=
  if loading then .loadingSpinner
  else if insights.length = 0 then .emptyState "No insights available yet."
  else .suggestionList insights

/-- C9, counterexample.  When the service returns an empty
course-of-actions array — "no data" — the modal renders it as-is and
does not fall back to the static list; and after a failed insights
fetch the panel shows the empty-state placeholder, not a static/local
suggestion list. -/
theorem c9_no_fallback_on_empty_data :
    courseOfActionsShown { courseOfActions := some [] } = []
    ∧ fallbackCourseOfActions ≠ []
    ∧ courseOfActionsShown { courseOfActions := some [] } ≠ fallbackCourseOfActions
    ∧ renderAnalysisPanel false [] = PanelView.emptyState "No insights available yet." := by
  refine ⟨rfl, ?_, ?_, rfl⟩
  · intro h
    exact List.cons_ne_nil _ _ h
  · intro h
    exact List.cons_ne_nil _ _ h.symm

/-- C9, amended: only a missing (`null`/`undefined`) course-of-actions
field makes the modal fall back to the static three-item list; a
present-but-empty list is rendered as-is.  On a suggestion-service
failure the store keeps its previous insights and records the error,
and the panel renders a non-error view in every state — a spinner, the
empty-state placeholder, or the suggestion list — never an error card. -/
theorem c9_static_fallback_and_no_error_view (st : StoreState) (msg : String) :
    courseOfActionsShown { courseOfActions := none } = fallbackCourseOfActions
    ∧ fallbackCourseOfActions.length = 3
    ∧ (fetchInsightsStep st (.error msg)).insights = st.insights
    ∧ (fetchInsightsStep st (.error msg)).error = some msg
    ∧ ∀ (loading : Bool) (insights : List CitySuggestion) (m : String),
        renderAnalysisPanel loading insights ≠ PanelView.panelError m := by
  refine ⟨rfl, rfl, rfl, rfl, ?_⟩
  intro loading insights m
  unfold renderAnalysisPanel
  by_cases hl : loading = true
  · rw [if_pos hl]
    intro h
    exact PanelView.noConfusion h
  · rw [if_neg hl]
    by_cases he : insights.length = 0
    · rw [if_pos he]
      intro h
      exact PanelView.noConfusion h
    · rw [if_neg he]
      intro h
      exact PanelView.noConfusion h

/-- Witness for `c9_static_fallback_and_no_error_view` at a concrete
store state and message: a missing course-of-actions field yields the
static fallback, and the panel's empty render is not an error card. -/
theorem c9_static_fallback_witness :
    courseOfActionsShown { courseOfActions := none } = fallbackCourseOfActions
    ∧ renderAnalysisPanel false [] ≠ PanelView.panelError "service down" :=
  ⟨(c9_static_fallback_and_no_error_view
      { insights := [], loading := false, error := none } "service down").1,
    (c9_static_fallback_and_no_error_view
      { insights := [], loading := false, error := none } "service down").2.2.2.2
      false [] "service down"⟩

-- ### Claim C10: the alert-email rate limiter

/-- The state relevant to `sendPoopAlert`: the `lastAlertSent`
timestamp (initially `0`) and, for specification purposes, the times at
which a POST to `/api/sim/poop-alert` was issued. -/
structure AlertState where
  lastAlertSent : Int
  posts : List Int
deriving DecidableEq

/-- State at component creation: `useState<number>(0)`. -/
def initAlert : AlertState :=
  { lastAlertSent := 0, posts := [] }

/-- `sendPoopAlert` (Map.tsx 74-108) called at time `now`
(`Date.now()`): if less than 10000 ms passed since the recorded
last-send time the function returns without posting; otherwise it
records `now` and issues the POST (whose own network failure is caught
and does not undo the recording). -/
def sendPoopAlert (now : Int) (st : AlertState) : AlertState :=
  if now - st.lastAlertSent < 10000 then st
  else { lastAlertSent := now, posts := st.posts ++ [now] }

/-- A sequence of calls to `sendPoopAlert` at the given times. -/
def runAlerts (times : List Int) (st : AlertState) : AlertState :=
  times.foldl (fun s t => sendPoopAlert t s) st

/-- The rate-limiter invariant: consecutive posts are at least 10000 ms
apart, and the recorded timestamp is the time of the last post (when
any post happened). -/
def alertInv (st : AlertState) : Prop :=
  List.Chain' (fun a b => a + 10000 ≤ b) st.posts
  ∧ (st.posts.getLast? = none ∨ st.posts.getLast? = some st.lastAlertSent)

theorem sendPoopAlert_inv (now : Int) (st : AlertState) (h : alertInv st) :
    alertInv (sendPoopAlert now st) := by
  rcases h with ⟨hchain, hlast⟩
  unfold sendPoopAlert
  by_cases hlt : now - st.lastAlertSent < 10000
  · rw [if_pos hlt]
    exact ⟨hchain, hlast⟩
  · rw [if_neg hlt]
    constructor
    · apply List.chain'_append.mpr
      refine ⟨hchain, List.chain'_singleton now, ?_⟩
      intro x hx y hy
      simp only [List.head?_cons, Option.mem_def, Option.some.injEq] at hy
      subst hy
      rcases hlast with hnone | hsome
      · rw [hnone] at hx
        exact absurd hx (by simp)
      · rw [hsome] at hx
        simp only [Option.mem_def, Option.some.injEq] at hx
        subst hx
        omega
    · right
      simp

theorem runAlerts_inv (times : List Int) (st : AlertState) (h : alertInv st) :
    alertInv (runAlerts times st) := by
  induction times generalizing st with
  | nil => exact h
  | cons t ts ih =>
      rw [runAlerts, List.foldl_cons]
      exact ih (sendPoopAlert t st) (sendPoopAlert_inv t st h)

/-- C10: `sendPoopAlert` is rate-limited.  A call less than 10000 ms
after the recorded last-send time returns without posting and changes
nothing; otherwise it records the call time and issues exactly one
POST; consequently, over any sequence of calls starting from the
initial state, consecutive posts are at least 10 seconds apart. -/
theorem c10_alert_rate_limited (st : AlertState) (now : Int) (times : List Int) :
    (now - st.lastAlertSent < 10000 → sendPoopAlert now st = st)
    ∧ (10000 ≤ now - st.lastAlertSent →
        (sendPoopAlert now st).posts = st.posts ++ [now]
        ∧ (sendPoopAlert now st).lastAlertSent = now)
    ∧ List.Chain' (fun a b => a + 10000 ≤ b) (runAlerts times initAlert).posts := by
  refine ⟨?_, ?_, ?_⟩
  · intro h
    unfold sendPoopAlert
    rw [if_pos h]
  · intro h
    unfold sendPoopAlert
    rw [if_neg (by omega)]
    exact ⟨rfl, rfl⟩
  · exact (runAlerts_inv times initAlert ⟨List.chain'_nil, Or.inl rfl⟩).1

/-- Witness for `c10_alert_rate_limited`: from the initial state a call
at 5000 ms (less than 10 s after the recorded time 0) is skipped, and a
call at 20000 ms posts once and records the time. -/
theorem c10_alert_witness :
    sendPoopAlert 5000 initAlert = initAlert
    ∧ (sendPoopAlert 20000 initAlert).posts = [20000]
    ∧ (sendPoopAlert 20000 initAlert).lastAlertSent = 20000 :=
  ⟨(c10_alert_rate_limited initAlert 5000 []).1 (by decide),
    ((c10_alert_rate_limited initAlert 20000 []).2.1 (by decide)).1,
    ((c10_alert_rate_limited initAlert 20000 []).2.1 (by decide)).2⟩
